import Mathlib

/-!
Verification of the phantom NES emulator core against its specification.

The Rust sources are shallowly embedded: machine integers (`u8`, `u16`,
`usize`) become `Nat` with wrapping made explicit (`% 256`, `% 0x4000`, ...),
byte arrays become functions `Nat → Nat`, fallible paths (Rust `panic!` /
`unimplemented!` / out-of-bounds slicing) become `Option` / a dedicated
`crash` constructor, and each Rust method becomes a Lean function on an
explicit state record.  Field and function names follow the source
(`src/nes/ppu/...`, `src/nes/cpu.rs`, `src/nes/cartridge.rs`, `src/nes/bus.rs`).
-/

set_option maxRecDepth 8000

/-! ## Arithmetic bridge lemmas for the bitwise operations used by the source -/

/-- Composing a high byte and a low byte with `(hi << 8) | lo` (as the Rust
`get_address` and `mem_read_u16` do) is plain positional arithmetic. -/
theorem shiftLeft8_lor_eq_add (hi lo : Nat) (h : lo < 256) :
    (hi <<< 8) ||| lo = hi * 256 + lo := by
  apply Nat.eq_of_testBit_eq
  intro j
  have h2 : lo < 2 ^ 8 := by norm_num; omega
  have hrw : hi * 256 + lo = 2 ^ 8 * hi + lo := by ring_nf
  rw [Nat.testBit_lor, hrw, Nat.testBit_mul_pow_two_add hi h2 j, Nat.shiftLeft_eq,
    show hi * 2 ^ 8 = 2 ^ 8 * hi from Nat.mul_comm _ _, Nat.testBit_mul_pow_two]
  by_cases hj : j < 8
  · simp [hj, Nat.not_le.mpr hj]
  · have hle : 8 ≤ j := Nat.not_lt.mp hj
    have hlo : lo.testBit j = false := by
      apply Nat.testBit_lt_two_pow
      calc lo < 2 ^ 8 := h2
        _ ≤ 2 ^ j := Nat.pow_le_pow_right (by norm_num) hle
    simp [hj, hle, hlo]

/-- Masking with `0xFF` (the Rust `as u8` / `& 0xFF` casts) is reduction mod 256. -/
theorem and_FF_eq_mod (x : Nat) : x &&& 0xFF = x % 256 := by
  have h := Nat.and_pow_two_sub_one_eq_mod x 8
  norm_num at h
  exact h

/-- Masking with `0x3FFF` (the PPU address mirror) is reduction mod `0x4000`. -/
theorem and_3FFF_eq_mod (x : Nat) : x &&& 0x3FFF = x % 0x4000 := by
  have h := Nat.and_pow_two_sub_one_eq_mod x 14
  norm_num at h
  exact h

theorem and_2FFF_id_nested :
    ∀ j < 16, ∀ i < 256, (0x2000 + (j * 256 + i)) &&& 0x2FFF = 0x2000 + (j * 256 + i) := by
  decide

/-- On the PPU nametable range `0x2000..=0x2FFF` the mask `& 0x2FFF` used by
`mirror_vram_address` is the identity. -/
theorem and_2FFF_id (k : Nat) (hk : k < 4096) : (0x2000 + k) &&& 0x2FFF = 0x2000 + k := by
  have h := and_2FFF_id_nested (k / 256) (by omega) (k % 256) (by omega)
  have hs : k / 256 * 256 + k % 256 = k := by omega
  rwa [hs] at h

/-- The Rust `(data as i8).wrapping_neg().wrapping_sub(1) as u8` (used by
`sub_to_register_a`) computes the one's complement `data ^ 0xFF` of a byte. -/
theorem wrapping_neg_sub_one_eq_xor :
    ∀ m < 256, ((256 - m % 256) % 256 + 255) % 256 = m ^^^ 0xFF := by
  decide

/-! ## Cartridge (`src/nes/cartridge.rs`) -/

inductive MirroringMode where
  | Vertical
  | Horizontal
  | FourScreen
deriving DecidableEq, Repr

def NES_FILE_SIGNATURE : List Nat := [0x4E, 0x45, 0x53, 0x1A]

def PRG_ROM_PAGE_SIZE : Nat := 16384

def CHR_ROM_PAGE_SIZE : Nat := 8192

/-- Outcome of `Rom::new`: a parsed ROM, a typed `Err(String)`, or `crash`
for the aborts the Rust code can hit (out-of-bounds indexing / slicing on a
truncated input, which panics instead of returning `Err`). -/
inductive RomOutcome where
  | ok (prg_rom : List Nat) (chr_rom : List Nat) (mapper : Nat) (screen_mirroring : MirroringMode)
  | err (msg : String)
  | crash
deriving DecidableEq, Repr

/-- `Rom::new` from `src/nes/cartridge.rs`.  Indexing and slicing out of the
input's range is a Rust panic, rendered as `crash`. -/
def Rom.new (raw_data : List Nat) : RomOutcome :=
  if raw_data.length < 4 then RomOutcome.crash
  else if raw_data.take 4 ≠ NES_FILE_SIGNATURE then
    RomOutcome.err "ROM data is not in iNES file format"
  else if raw_data.length < 8 then RomOutcome.crash
  else
    let ines_version := (raw_data.getD 7 0 >>> 2) &&& 0b11
    if ines_version ≠ 0 then RomOutcome.err "NES2.0 ROM format not supported"
    else
      let is_mirroring_four_screen := raw_data.getD 6 0 &&& 0b1000 ≠ 0
      let is_mirroring_vertical := raw_data.getD 6 0 &&& 0b1 ≠ 0
      let screen_mirroring :=
        if is_mirroring_four_screen then MirroringMode.FourScreen
        else if is_mirroring_vertical then MirroringMode.Vertical
        else MirroringMode.Horizontal
      let mapper := (raw_data.getD 7 0 &&& 0b11110000) ||| (raw_data.getD 6 0 >>> 4)
      let skip_trainer := raw_data.getD 6 0 &&& 0b100 ≠ 0
      let prg_rom_size := raw_data.getD 4 0 * PRG_ROM_PAGE_SIZE
      let chr_rom_size := raw_data.getD 5 0 * CHR_ROM_PAGE_SIZE
      let prg_rom_start_pos := 16 + (if skip_trainer then 512 else 0)
      let chr_rom_start_pos := prg_rom_start_pos + prg_rom_size
      if prg_rom_start_pos + prg_rom_size > raw_data.length then RomOutcome.crash
      else if chr_rom_start_pos + chr_rom_size > raw_data.length then RomOutcome.crash
      else RomOutcome.ok ((raw_data.drop prg_rom_start_pos).take prg_rom_size)
        ((raw_data.drop chr_rom_start_pos).take chr_rom_size) mapper screen_mirroring

/-! ## PPU address register (`src/nes/ppu/registers/address.rs`) -/

structure AddressRegister where
  value0 : Nat   -- higher byte (`value.0`, a `u8`)
  value1 : Nat   -- lower byte (`value.1`, a `u8`)
  hi_ptr : Bool
deriving DecidableEq, Repr

def AddressRegister.new : AddressRegister :=
  { value0 := 0, value1 := 0, hi_ptr := true }

def AddressRegister.get_address (r : AddressRegister) : Nat :=
  (r.value0 <<< 8) ||| r.value1

def AddressRegister.set (r : AddressRegister) (data : Nat) : AddressRegister :=
  { r with value0 := (data >>> 8) % 256, value1 := data &&& 0xFF }

def AddressRegister.update (r : AddressRegister) (data : Nat) : AddressRegister :=
  let r1 := if r.hi_ptr then { r with value0 := data } else { r with value1 := data }
  let r2 := if r1.get_address > 0x3FFF then r1.set (r1.get_address &&& 0x3FFF) else r1
  { r2 with hi_ptr := !r.hi_ptr }

def AddressRegister.increment (r : AddressRegister) (inc : Nat) : AddressRegister :=
  let previous_lo := r.value1
  let r1 := { r with value1 := (r.value1 + inc) % 256 }
  let r2 := if previous_lo > r1.value1 then { r1 with value0 := (r1.value0 + 1) % 256 } else r1
  if r2.get_address > 0x3FFF then r2.set (r2.get_address &&& 0x3FFF) else r2

def AddressRegister.reset_latch (r : AddressRegister) : AddressRegister :=
  { r with hi_ptr := true }

/-- `get_address` of a literal register value, in positional arithmetic. -/
theorem AddressRegister.get_address_mk (v0 v1 : Nat) (b : Bool) (h : v1 < 256) :
    (AddressRegister.mk v0 v1 b).get_address = v0 * 256 + v1 :=
  shiftLeft8_lor_eq_add v0 v1 h

/-! ## PPU scroll register (`src/nes/ppu/registers/scroll.rs`) -/

structure ScrollRegister where
  scroll_x : Nat
  scroll_y : Nat
  latch : Bool
deriving DecidableEq, Repr

def ScrollRegister.new : ScrollRegister :=
  { scroll_x := 0, scroll_y := 0, latch := false }

def ScrollRegister.write (r : ScrollRegister) (data : Nat) : ScrollRegister :=
  let r1 := if !r.latch then { r with scroll_x := data } else { r with scroll_y := data }
  { r1 with latch := !r.latch }

def ScrollRegister.reset_latch (r : ScrollRegister) : ScrollRegister :=
  { r with latch := false }

/-! ## PPU control register (`src/nes/ppu/registers/control.rs`) -/

structure ControlRegister where
  bits : Nat
deriving DecidableEq, Repr

def ControlRegister.VRAM_ADDR_INCREMENT : Nat := 0b00000100

def ControlRegister.GENERATE_NMI : Nat := 0b10000000

def ControlRegister.new : ControlRegister := { bits := 0 }

/-- The `bitflags` `contains` test for a mask. -/
def ControlRegister.contains (r : ControlRegister) (mask : Nat) : Bool :=
  r.bits &&& mask == mask

def ControlRegister.vram_address_increment (r : ControlRegister) : Nat :=
  if !(r.contains ControlRegister.VRAM_ADDR_INCREMENT) then 1 else 32

def ControlRegister.has_vblank_nmi_flag (r : ControlRegister) : Bool :=
  r.contains ControlRegister.GENERATE_NMI

def ControlRegister.update (r : ControlRegister) (bits_data : Nat) : ControlRegister :=
  { r with bits := bits_data }

/-! ## PPU status register (`src/nes/ppu/registers/status.rs`) -/

structure StatusRegister where
  bits : Nat
deriving DecidableEq, Repr

def StatusRegister.SPRITE_ZERO_HIT : Nat := 0b01000000

def StatusRegister.VBLANK_STARTED : Nat := 0b10000000

def StatusRegister.new : StatusRegister := { bits := 0 }

/-- The `bitflags` `set` operation: insert the mask or remove it (u8 complement). -/
def StatusRegister.setFlag (r : StatusRegister) (mask : Nat) (status : Bool) : StatusRegister :=
  if status then { r with bits := r.bits ||| mask }
  else { r with bits := r.bits &&& (0xFF ^^^ mask) }

def StatusRegister.set_sprite_zero_hit_flag (r : StatusRegister) (status : Bool) : StatusRegister :=
  r.setFlag StatusRegister.SPRITE_ZERO_HIT status

def StatusRegister.set_vblank_started_flag (r : StatusRegister) (status : Bool) : StatusRegister :=
  r.setFlag StatusRegister.VBLANK_STARTED status

def StatusRegister.reset_vblank_status_flag (r : StatusRegister) : StatusRegister :=
  { r with bits := r.bits &&& (0xFF ^^^ StatusRegister.VBLANK_STARTED) }

def StatusRegister.has_vblank_started (r : StatusRegister) : Bool :=
  r.bits &&& StatusRegister.VBLANK_STARTED == StatusRegister.VBLANK_STARTED

def StatusRegister.snapshot (r : StatusRegister) : Nat := r.bits

/-! ## PPU mask register (`src/nes/ppu/registers/mask.rs`), state only -/

structure MaskRegister where
  bits : Nat
deriving DecidableEq, Repr

def MaskRegister.new : MaskRegister := { bits := 0 }

/-! ## PPU core (`src/nes/ppu/mod.rs`)

Byte arrays (`vram`, `oam_data_register`, `palette_table`) and the CHR blob
are embedded as total functions `Nat → Nat`. -/

structure Ppu where
  vram : Nat → Nat
  chr_rom : Nat → Nat
  mirroring_mode : MirroringMode
  addr_register : AddressRegister
  ctrl_register : ControlRegister
  mask_register : MaskRegister
  scroll_register : ScrollRegister
  status_register : StatusRegister
  oam_addr_register : Nat
  oam_data_register : Nat → Nat
  palette_table : Nat → Nat
  internal_data_buffer : Nat
  scanline : Nat
  cycles : Nat
  nmi_interrupt : Option Nat

def Ppu.new (chr_rom : Nat → Nat) (mirroring_mode : MirroringMode) : Ppu :=
  { vram := fun _ => 0
    chr_rom := chr_rom
    mirroring_mode := mirroring_mode
    addr_register := AddressRegister.new
    ctrl_register := ControlRegister.new
    mask_register := MaskRegister.new
    scroll_register := ScrollRegister.new
    status_register := StatusRegister.new
    oam_addr_register := 0
    oam_data_register := fun _ => 0
    palette_table := fun _ => 0
    internal_data_buffer := 0
    scanline := 0
    cycles := 0
    nmi_interrupt := none }

/-- `Ppu::mirror_vram_address`, parametrised by the (immutable) mirroring
mode; the Rust `match` over `(mode, name_table)` becomes the same case
distinction as an if-chain. -/
def mirror_vram_address (mode : MirroringMode) (addr : Nat) : Nat :=
  let mirrored_vram := addr &&& 0b0010111111111111
  let vram_index := mirrored_vram - 0x2000
  let name_table := vram_index / 0x0400
  if (mode = MirroringMode.Horizontal ∧ name_table = 2) ∨
      (mode = MirroringMode.Horizontal ∧ name_table = 1) then vram_index - 0x0400
  else if (mode = MirroringMode.Vertical ∧ name_table = 2) ∨
      (mode = MirroringMode.Vertical ∧ name_table = 3) ∨
      (mode = MirroringMode.Horizontal ∧ name_table = 3) then vram_index - 0x0800
  else vram_index

def Ppu.mirror_vram_address_m (p : Ppu) (addr : Nat) : Nat :=
  mirror_vram_address p.mirroring_mode addr

def Ppu.increment_vram_address (p : Ppu) : Ppu :=
  { p with addr_register := p.addr_register.increment p.ctrl_register.vram_address_increment }

/-- `Ppu::read_data_register`.  The two `panic!` arms (`0x3000..=0x3EFF` and
addresses past `0x3FFF`) are `none`; a normal return is `some (byte, state)`. -/
def Ppu.read_data_register (p : Ppu) : Option (Nat × Ppu) :=
  let addr := p.addr_register.get_address
  let p1 := p.increment_vram_address
  if addr ≤ 0x1FFF then
    some (p1.internal_data_buffer, { p1 with internal_data_buffer := p1.chr_rom addr })
  else if 0x2000 ≤ addr ∧ addr ≤ 0x2FFF then
    some (p1.internal_data_buffer,
      { p1 with internal_data_buffer := p1.vram (p1.mirror_vram_address_m addr) })
  else if addr = 0x3F10 ∨ addr = 0x3F14 ∨ addr = 0x3F18 ∨ addr = 0x3F1C then
    some (p1.palette_table (addr - 0x10 - 0x3F00), p1)
  else if 0x3000 ≤ addr ∧ addr ≤ 0x3EFF then none
  else if 0x3F00 ≤ addr ∧ addr ≤ 0x3FFF then
    some (p1.palette_table (addr - 0x3F00), p1)
  else none

/-- `Ppu::write_to_data_register`.  The `unimplemented!`/`panic!` arms are
`none`; the write to CHR ROM (`0x0000..=0x1FFF`) only logs and changes
nothing.  The address increment happens after the `match`, so only on the
non-panicking arms. -/
def Ppu.write_to_data_register (p : Ppu) (data : Nat) : Option Ppu :=
  let addr := p.addr_register.get_address
  let written : Option Ppu :=
    if addr ≤ 0x1FFF then some p
    else if 0x2000 ≤ addr ∧ addr ≤ 0x2FFF then
      some { p with vram :=
        fun i => if i = p.mirror_vram_address_m addr then data else p.vram i }
    else if 0x3000 ≤ addr ∧ addr ≤ 0x3EFF then none
    else if addr = 0x3F10 ∨ addr = 0x3F14 ∨ addr = 0x3F18 ∨ addr = 0x3F1C then
      some { p with palette_table :=
        fun i => if i = addr - 0x10 - 0x3F00 then data else p.palette_table i }
    else if 0x3F00 ≤ addr ∧ addr ≤ 0x3FFF then
      some { p with palette_table :=
        fun i => if i = addr - 0x3F00 then data else p.palette_table i }
    else none
  written.map Ppu.increment_vram_address

def Ppu.write_to_address_register (p : Ppu) (value : Nat) : Ppu :=
  { p with addr_register := p.addr_register.update value }

def Ppu.write_to_control_register (p : Ppu) (value : Nat) : Ppu :=
  let prev_nmi_flag := p.ctrl_register.has_vblank_nmi_flag
  let p1 := { p with ctrl_register := p.ctrl_register.update value }
  if !prev_nmi_flag && p1.ctrl_register.has_vblank_nmi_flag &&
      p1.status_register.has_vblank_started then
    { p1 with nmi_interrupt := some 1 }
  else p1

def Ppu.write_to_mask_register (p : Ppu) (value : Nat) : Ppu :=
  { p with mask_register := { bits := value } }

def Ppu.write_to_scroll_register (p : Ppu) (value : Nat) : Ppu :=
  { p with scroll_register := p.scroll_register.write value }

def Ppu.read_status_register (p : Ppu) : Nat × Ppu :=
  let stat_reg_snapshot := p.status_register.snapshot
  let p1 := { p with status_register := p.status_register.reset_vblank_status_flag }
  let p2 := { p1 with addr_register := p1.addr_register.reset_latch }
  let p3 := { p2 with scroll_register := p2.scroll_register.reset_latch }
  (stat_reg_snapshot, p3)

def Ppu.write_to_oam_address_register (p : Ppu) (value : Nat) : Ppu :=
  { p with oam_addr_register := value }

def Ppu.write_to_oam_data_register (p : Ppu) (value : Nat) : Ppu :=
  { p with
    oam_data_register := fun i => if i = p.oam_addr_register then value else p.oam_data_register i
    oam_addr_register := (p.oam_addr_register + 1) % 256 }

def Ppu.read_oam_data_register (p : Ppu) : Nat :=
  p.oam_data_register p.oam_addr_register

/-- `Ppu::tick`, returning `(frame_complete, new_state)`. -/
def Ppu.tick (p : Ppu) (cycles : Nat) : Bool × Ppu :=
  let p1 := { p with cycles := p.cycles + cycles }
  if 341 ≤ p1.cycles then
    let p2 := { p1 with cycles := p1.cycles - 341, scanline := p1.scanline + 1 }
    let p3 : Ppu :=
      if p2.scanline = 241 then
        let q := { p2 with status_register :=
          (p2.status_register.set_vblank_started_flag true).set_sprite_zero_hit_flag false }
        if q.ctrl_register.has_vblank_nmi_flag then { q with nmi_interrupt := some 1 } else q
      else p2
    if 262 ≤ p3.scanline then
      (true, { p3 with
        scanline := 0
        nmi_interrupt := none
        status_register :=
          (p3.status_register.set_sprite_zero_hit_flag false).reset_vblank_status_flag })
    else (false, p3)
  else (false, p1)

def Ppu.poll_nmi_interrupt (p : Ppu) : Option Nat × Ppu :=
  (p.nmi_interrupt, { p with nmi_interrupt := none })

/-! ## Bus (`src/nes/bus.rs`), tick path

Only the clocking path is needed here.  The heap-allocated
`game_loop_callback` closure is observed through the number of times the Bus
invokes it (`frame_count`). -/

structure Bus where
  cpu_ram : Nat → Nat
  prg_rom : List Nat
  ppu : Ppu
  cycles : Nat
  frame_count : Nat

/-- `Bus::tick`: the `cycles * 3` multiply is on `u8`, hence the `% 256`. -/
def Bus.tick (b : Bus) (cycles : Nat) : Bus :=
  let b1 := { b with cycles := b.cycles + cycles }
  let r := b1.ppu.tick (cycles * 3 % 256)
  let b2 := { b1 with ppu := r.2 }
  if r.1 then { b2 with frame_count := b2.frame_count + 1 } else b2

/-- Iterated `Bus::tick`, one call per instruction-cycle count in the list. -/
def Bus.tick_seq (b : Bus) (cs : List Nat) : Bus :=
  cs.foldl Bus.tick b

/-! ## CPU (`src/nes/cpu.rs`), the parts the claims touch

The CPU reaches memory through the Bus; for the stack page (`$0100..$01FF`,
routed to work RAM) and the interrupt vectors (routed to PRG ROM) that
routing is address-preserving, so memory is embedded as one flat function
`mem : Nat → Nat`.  `Bus::tick` calls made by the CPU are recorded in
`bus_ticks` (their PPU effect is modelled on `Bus`/`Ppu` above). -/

def ZEROTH_BIT : Nat := 0b00000001
def FIRST_BIT : Nat := 0b00000010
def SECOND_BIT : Nat := 0b00000100
def THIRD_BIT : Nat := 0b00001000
def FOURTH_BIT : Nat := 0b00010000
def FIFTH_BIT : Nat := 0b00100000
def SIXTH_BIT : Nat := 0b01000000
def SEVENTH_BIT : Nat := 0b10000000

def STACK_START_ADDR : Nat := 0x0100
def STACK_RESET_ADDR : Nat := 0xFD

def CpuFlags.CARRY : Nat := ZEROTH_BIT
def CpuFlags.ZERO : Nat := FIRST_BIT
def CpuFlags.INTERRUPT_DISABLE : Nat := SECOND_BIT
def CpuFlags.DECIMAL_MODE : Nat := THIRD_BIT
def CpuFlags.BREAK : Nat := FOURTH_BIT
def CpuFlags.BREAK2 : Nat := FIFTH_BIT
def CpuFlags.OVERFLOW : Nat := SIXTH_BIT
def CpuFlags.NEGATIVE : Nat := SEVENTH_BIT

/-- `src/nes/interrupt.rs` -/
inductive InterruptType where
  | Nmi
deriving DecidableEq, Repr

structure Interrupt where
  itype : InterruptType
  vec_addr : Nat
  b_flag_mask : Nat
  cpu_cycles : Nat
deriving DecidableEq, Repr

def NMI : Interrupt :=
  { itype := InterruptType.Nmi
    vec_addr := 0xFFFA
    b_flag_mask := 0b00100000
    cpu_cycles := 2 }

structure Cpu where
  register_a : Nat
  register_x : Nat
  register_y : Nat
  status : Nat
  program_counter : Nat
  stack_pointer : Nat
  mem : Nat → Nat
  bus_ticks : List Nat

def Cpu.mem_read (cpu : Cpu) (addr : Nat) : Nat := cpu.mem addr

def Cpu.mem_write (cpu : Cpu) (addr data : Nat) : Cpu :=
  { cpu with mem := fun a => if a = addr then data else cpu.mem a }

def Cpu.mem_read_u16 (cpu : Cpu) (addr : Nat) : Nat :=
  let lo := cpu.mem_read addr
  let hi := cpu.mem_read (addr + 1)
  (hi <<< 8) ||| lo

/-- `Cpu::stack_push`: write at `$0100 + S`, then `S ← S − 1` with u8 wrap. -/
def Cpu.stack_push (cpu : Cpu) (data : Nat) : Cpu :=
  let cpu1 := cpu.mem_write (STACK_START_ADDR + cpu.stack_pointer) data
  { cpu1 with stack_pointer := (cpu1.stack_pointer + 255) % 256 }

def Cpu.stack_push_u16 (cpu : Cpu) (data : Nat) : Cpu :=
  let hi := (data >>> 8) % 256
  let lo := data &&& 0xFF
  (cpu.stack_push hi).stack_push lo

def Cpu.stack_push_seq (cpu : Cpu) (ds : List Nat) : Cpu :=
  ds.foldl Cpu.stack_push cpu

/-- `Cpu::update_zero_flag` / `update_negative_flag` applied by `set_register_a`. -/
def Cpu.update_zero_flag (cpu : Cpu) (result : Nat) : Cpu :=
  if result = 0 then { cpu with status := cpu.status ||| CpuFlags.ZERO }
  else { cpu with status := cpu.status &&& (0xFF ^^^ CpuFlags.ZERO) }

def Cpu.update_negative_flag (cpu : Cpu) (result : Nat) : Cpu :=
  if result &&& SEVENTH_BIT ≠ 0 then { cpu with status := cpu.status ||| CpuFlags.NEGATIVE }
  else { cpu with status := cpu.status &&& (0xFF ^^^ CpuFlags.NEGATIVE) }

def Cpu.set_register_a (cpu : Cpu) (value : Nat) : Cpu :=
  let cpu1 := { cpu with register_a := value }
  (cpu1.update_zero_flag cpu1.register_a).update_negative_flag cpu1.register_a

/-- `Cpu::add_to_register_a` (the ADC/SBC core). -/
def Cpu.add_to_register_a (cpu : Cpu) (data : Nat) : Cpu :=
  let carry_in : Nat := if cpu.status &&& CpuFlags.CARRY ≠ 0 then 1 else 0
  let sum := cpu.register_a + data + carry_in
  let carry_out := sum > 0xFF
  let cpu1 :=
    if carry_out then { cpu with status := cpu.status ||| CpuFlags.CARRY }
    else { cpu with status := cpu.status &&& (0xFF ^^^ CpuFlags.CARRY) }
  let result := sum % 256
  let is_sign_of_inputs_different_from_sign_of_result :=
    (data ^^^ result) &&& (result ^^^ cpu.register_a) &&& 0x80 ≠ 0
  let cpu2 :=
    if is_sign_of_inputs_different_from_sign_of_result then
      { cpu1 with status := cpu1.status ||| CpuFlags.OVERFLOW }
    else { cpu1 with status := cpu1.status &&& (0xFF ^^^ CpuFlags.OVERFLOW) }
  cpu2.set_register_a result

/-- `Cpu::sub_to_register_a`: ADC of `(data as i8).wrapping_neg().wrapping_sub(1) as u8`. -/
def Cpu.sub_to_register_a (cpu : Cpu) (data : Nat) : Cpu :=
  cpu.add_to_register_a (((256 - data % 256) % 256 + 255) % 256)

/-- `Cpu::manage_interrupt`. -/
def Cpu.manage_interrupt (cpu : Cpu) (interrupt : Interrupt) : Cpu :=
  let cpu1 := cpu.stack_push_u16 cpu.program_counter
  let status_flags := cpu.status
  let status_flags :=
    if interrupt.b_flag_mask &&& FOURTH_BIT = 1 then status_flags ||| CpuFlags.BREAK
    else status_flags &&& (0xFF ^^^ CpuFlags.BREAK)
  let status_flags :=
    if interrupt.b_flag_mask &&& FIFTH_BIT = 1 then status_flags ||| CpuFlags.BREAK2
    else status_flags &&& (0xFF ^^^ CpuFlags.BREAK2)
  let cpu2 := cpu1.stack_push status_flags
  let cpu3 := { cpu2 with status := cpu2.status ||| CpuFlags.INTERRUPT_DISABLE }
  let cpu4 := { cpu3 with bus_ticks := cpu3.bus_ticks ++ [interrupt.cpu_cycles] }
  { cpu4 with program_counter := cpu4.mem_read_u16 interrupt.vec_addr }

/-! ## Concrete states used by witnesses and counterexamples -/

/-- A CPU in the post-reset configuration (`P = 0b100100`, `S = 0xFD`),
about to service an NMI at `PC = 0xABCD`, with the NMI vector at
`0xFFFA/0xFFFB` holding `0x1234` little-endian. -/
def cpuNmi : Cpu :=
  { register_a := 0
    register_x := 0
    register_y := 0
    status := 0b100100
    program_counter := 0xABCD
    stack_pointer := STACK_RESET_ADDR
    mem := fun a => if a = 0xFFFA then 0x34 else if a = 0xFFFB then 0x12 else 0
    bus_ticks := [] }

/-- A freshly constructed PPU over an all-zero CHR blob. -/
def ppu0 : Ppu := Ppu.new (fun _ => 0) MirroringMode.Horizontal

/-- A freshly constructed Bus over `ppu0`. -/
def bus0 : Bus :=
  { cpu_ram := fun _ => 0
    prg_rom := []
    ppu := ppu0
    cycles := 0
    frame_count := 0 }

/-- A CPU with every register zero (generic starting state for witnesses). -/
def cpu0 : Cpu :=
  { register_a := 0
    register_x := 0
    register_y := 0
    status := 0
    program_counter := 0
    stack_pointer := 0
    mem := fun _ => 0
    bus_ticks := [] }

/-- `ppu0` with the Status register's VBlank-started flag set. -/
def ppuVblank : Ppu := { ppu0 with status_register := { bits := 0x80 } }

/-- A 16-byte iNES header declaring one 16 KiB PRG page with no payload at
all behind it: a truncated cartridge image. -/
def truncatedRom : List Nat :=
  [0x4E, 0x45, 0x53, 0x1A, 0x01, 0x00, 0x00, 0x00, 0, 0, 0, 0, 0, 0, 0, 0]

/-- The data values 1..257, pushed in order by the C7 counterexample. -/
def push257 : List Nat := (List.range 257).map (fun n => n + 1)

/-! ## C2 — ADC/SBC duality -/

/-- C2: for every starting CPU state and operand byte `M < 256`, `SBC M`
produces exactly the same state — accumulator and C, N, Z, V flags included —
as `ADC (M XOR 0xFF)`.  (`sub_to_register_a` feeds
`(M as i8).wrapping_neg().wrapping_sub(1) as u8`, i.e. the one's complement
of `M`, into `add_to_register_a`.) -/
theorem sbc_eq_adc_ones_complement (cpu : Cpu) (m : Nat) (hm : m < 256) :
    cpu.sub_to_register_a m = cpu.add_to_register_a (m ^^^ 0xFF) := by
  unfold Cpu.sub_to_register_a
  rw [wrapping_neg_sub_one_eq_xor m hm]

theorem sbc_eq_adc_ones_complement_witness :
    (3:Nat) < 256 ∧ cpu0.sub_to_register_a 3 = cpu0.add_to_register_a (3 ^^^ 0xFF) :=
  ⟨by decide, sbc_eq_adc_ones_complement cpu0 3 (by decide)⟩

/-! ## C10 — OAM data register reads and writes -/

/-- C10: reading the OAM data register returns `OAM[OAMADDR]` (the read is a
pure function of the state, so it modifies nothing); writing stores to
`OAM[OAMADDR]`, then increments `OAMADDR` by one wrapping at 256, leaves
every other OAM cell alone, and touches no other PPU state. -/
theorem oam_data_register_access (p : Ppu) (v : Nat) :
    p.read_oam_data_register = p.oam_data_register p.oam_addr_register ∧
    (p.write_to_oam_data_register v).oam_data_register p.oam_addr_register = v ∧
    (p.write_to_oam_data_register v).oam_addr_register = (p.oam_addr_register + 1) % 256 ∧
    (∀ i, i ≠ p.oam_addr_register →
      (p.write_to_oam_data_register v).oam_data_register i = p.oam_data_register i) ∧
    (p.write_to_oam_data_register v).vram = p.vram ∧
    (p.write_to_oam_data_register v).chr_rom = p.chr_rom ∧
    (p.write_to_oam_data_register v).mirroring_mode = p.mirroring_mode ∧
    (p.write_to_oam_data_register v).addr_register = p.addr_register ∧
    (p.write_to_oam_data_register v).ctrl_register = p.ctrl_register ∧
    (p.write_to_oam_data_register v).mask_register = p.mask_register ∧
    (p.write_to_oam_data_register v).scroll_register = p.scroll_register ∧
    (p.write_to_oam_data_register v).status_register = p.status_register ∧
    (p.write_to_oam_data_register v).palette_table = p.palette_table ∧
    (p.write_to_oam_data_register v).internal_data_buffer = p.internal_data_buffer ∧
    (p.write_to_oam_data_register v).scanline = p.scanline ∧
    (p.write_to_oam_data_register v).cycles = p.cycles ∧
    (p.write_to_oam_data_register v).nmi_interrupt = p.nmi_interrupt := by
  refine ⟨rfl, ?_, rfl, ?_, rfl, rfl, rfl, rfl, rfl, rfl, rfl, rfl, rfl, rfl, rfl, rfl, rfl⟩
  · simp [Ppu.write_to_oam_data_register]
  · intro i hi
    simp [Ppu.write_to_oam_data_register, hi]

theorem oam_data_register_access_witness :
    (5:Nat) ≠ ppu0.oam_addr_register ∧
    (ppu0.write_to_oam_data_register 7).oam_data_register 5 = ppu0.oam_data_register 5 :=
  ⟨by decide, (oam_data_register_access ppu0 7).2.2.2.1 5 (by decide)⟩

/-! ## C9 — NMI edge on Control writes -/

/-- C9: writing the Control register latches an NMI exactly when the
NMI-enable bit rises from 0 to 1 while the Status register's VBlank-started
flag is set; if the bit was already set, or VBlank is not active, the
pending-NMI latch is left exactly as it was. -/
theorem control_write_nmi_edge (p : Ppu) (value : Nat) :
    (p.status_register.has_vblank_started = true →
      p.ctrl_register.has_vblank_nmi_flag = false →
      (p.ctrl_register.update value).has_vblank_nmi_flag = true →
      (p.write_to_control_register value).nmi_interrupt = some 1) ∧
    (p.ctrl_register.has_vblank_nmi_flag = true →
      (p.write_to_control_register value).nmi_interrupt = p.nmi_interrupt) ∧
    (p.status_register.has_vblank_started = false →
      (p.write_to_control_register value).nmi_interrupt = p.nmi_interrupt) := by
  refine ⟨?_, ?_, ?_⟩
  · intro h1 h2 h3
    simp [Ppu.write_to_control_register, h1, h2, h3]
  · intro h1
    simp [Ppu.write_to_control_register, h1]
  · intro h1
    simp [Ppu.write_to_control_register, h1]

theorem control_write_nmi_edge_witness :
    ppuVblank.status_register.has_vblank_started = true ∧
    ppuVblank.ctrl_register.has_vblank_nmi_flag = false ∧
    (ppuVblank.ctrl_register.update 0x80).has_vblank_nmi_flag = true ∧
    (ppuVblank.write_to_control_register 0x80).nmi_interrupt = some 1 :=
  ⟨by decide, by decide, by decide,
    (control_write_nmi_edge ppuVblank 0x80).1 (by decide) (by decide) (by decide)⟩

/-! ## C6 — the Scroll/Address write latches -/

/-- C6 counterexample: after a Status read resets both latches, one write to
the Scroll register does NOT flip the write phase of the Address register:
its `hi_ptr` is still `true`, and the next Address write therefore sets the
HIGH byte (value0 = 0x23), where the claimed shared latch would have made it
the second write and set the low byte. -/
theorem shared_latch_counterexample :
    ((ppu0.read_status_register).2.write_to_scroll_register 0x12).addr_register.hi_ptr
        = (ppu0.read_status_register).2.addr_register.hi_ptr ∧
    (ppu0.read_status_register).2.addr_register.hi_ptr = true ∧
    (((ppu0.read_status_register).2.write_to_scroll_register 0x12).write_to_address_register
        0x23).addr_register.value0 = 0x23 ∧
    (((ppu0.read_status_register).2.write_to_scroll_register 0x12).write_to_address_register
        0x23).addr_register.value1 = 0 := by
  decide

/-- C6 amended: the Scroll register and the Address register each keep their
own toggle latch.  Reading Status resets both; for each register the first
write after a reset sets the high byte (Address) / the X scroll and the
second sets the low byte / the Y scroll; but a write to one register leaves
the other register — its write phase included — completely unchanged. -/
theorem write_twice_latch_semantics (p : Ppu) (d : Nat) :
    (p.write_to_scroll_register d).addr_register = p.addr_register ∧
    (p.write_to_address_register d).scroll_register = p.scroll_register ∧
    (p.read_status_register).2.addr_register.hi_ptr = true ∧
    (p.read_status_register).2.scroll_register.latch = false ∧
    (p.write_to_address_register d).addr_register.hi_ptr = !p.addr_register.hi_ptr ∧
    (p.write_to_scroll_register d).scroll_register.latch = !p.scroll_register.latch ∧
    (p.scroll_register.latch = false →
      (p.write_to_scroll_register d).scroll_register.scroll_x = d) ∧
    (p.scroll_register.latch = true →
      (p.write_to_scroll_register d).scroll_register.scroll_y = d) ∧
    (p.addr_register.hi_ptr = true → d < 0x40 → p.addr_register.value1 < 256 →
      (p.write_to_address_register d).addr_register.value0 = d) ∧
    (p.addr_register.hi_ptr = false → p.addr_register.value0 < 0x40 → d < 256 →
      (p.write_to_address_register d).addr_register.value1 = d) := by
  refine ⟨rfl, rfl, rfl, rfl, rfl, rfl, ?_, ?_, ?_, ?_⟩
  · intro h
    simp [Ppu.write_to_scroll_register, ScrollRegister.write, h]
  · intro h
    simp [Ppu.write_to_scroll_register, ScrollRegister.write, h]
  · intro h hd h1
    simp only [Ppu.write_to_address_register, AddressRegister.update, h, if_true]
    rw [if_neg (by rw [AddressRegister.get_address_mk _ _ _ h1]; omega)]
  · intro h h0 hd
    simp only [Ppu.write_to_address_register, AddressRegister.update, h, Bool.false_eq_true,
      if_false]
    rw [if_neg (by rw [AddressRegister.get_address_mk _ _ _ hd]; omega)]

theorem write_twice_latch_semantics_witness :
    ppu0.addr_register.hi_ptr = true ∧ (0x23:Nat) < 0x40 ∧ ppu0.addr_register.value1 < 256 ∧
    (ppu0.write_to_address_register 0x23).addr_register.value0 = 0x23 :=
  ⟨by decide, by decide, by decide,
    (write_twice_latch_semantics ppu0 0x23).2.2.2.2.2.2.2.2.1 (by decide) (by decide) (by decide)⟩

/-! ## C7 — stack wrap -/

/-- Iterated `stack_push` decrements the (byte-valued) stack pointer once per
push, wrapping mod 256. -/
theorem stack_push_seq_sp (ds : List Nat) :
    ∀ cpu : Cpu, cpu.stack_pointer < 256 →
      (cpu.stack_push_seq ds).stack_pointer = (cpu.stack_pointer + 255 * ds.length) % 256 := by
  induction ds with
  | nil =>
      intro cpu h
      simp [Cpu.stack_push_seq]
      omega
  | cons a t ih =>
      intro cpu h
      have h2 : (cpu.stack_push a).stack_pointer = (cpu.stack_pointer + 255) % 256 := rfl
      have h3 := ih (cpu.stack_push a) (by rw [h2]; omega)
      simp only [Cpu.stack_push_seq, List.foldl_cons, List.length_cons] at h3 ⊢
      rw [h3, h2]
      omega

/-- C7 counterexample: with `S = 0xFD`, pushing the 257 bytes 1..257 leaves
the stack pointer at 0xFC — NOT unchanged — and the 257th byte lands in the
slot originally at `$0100 + S` (the one the first push wrote), not at
`$0100 + S + 1` (which still holds the 256th byte). -/
theorem stack_wrap_counterexample :
    (cpuNmi.stack_push_seq push257).stack_pointer ≠ cpuNmi.stack_pointer ∧
    (cpuNmi.stack_push_seq push257).stack_pointer = 0xFC ∧
    (cpuNmi.stack_push_seq push257).mem (0x0100 + cpuNmi.stack_pointer + 1) ≠ 257 ∧
    (cpuNmi.stack_push_seq push257).mem (0x0100 + cpuNmi.stack_pointer + 1) = 256 ∧
    (cpuNmi.stack_push_seq push257).mem (0x0100 + cpuNmi.stack_pointer) = 257 := by
  decide

/-- C7 amended: for every starting stack pointer `S < 256`, performing 256
consecutive pushes returns the stack pointer to exactly `S`; the 257th push
therefore overwrites the slot at `$0100 + S` — the one the first push wrote —
and leaves the stack pointer at `S − 1 (mod 256)`. -/
theorem stack_push_wrap (cpu : Cpu) (h : cpu.stack_pointer < 256) (ds : List Nat)
    (hlen : ds.length = 256) (d : Nat) :
    (cpu.stack_push_seq ds).stack_pointer = cpu.stack_pointer ∧
    ((cpu.stack_push_seq ds).stack_push d).mem (0x0100 + cpu.stack_pointer) = d ∧
    ((cpu.stack_push_seq ds).stack_push d).stack_pointer = (cpu.stack_pointer + 255) % 256 := by
  have hsp : (cpu.stack_push_seq ds).stack_pointer = cpu.stack_pointer := by
    rw [stack_push_seq_sp ds cpu h, hlen]
    omega
  refine ⟨hsp, ?_, ?_⟩
  · simp [Cpu.stack_push, Cpu.mem_write, hsp, STACK_START_ADDR]
  · simp only [Cpu.stack_push, Cpu.mem_write]
    rw [hsp]

theorem stack_push_wrap_witness :
    cpuNmi.stack_pointer < 256 ∧ (List.replicate 256 (0:Nat)).length = 256 ∧
    ((cpuNmi.stack_push_seq (List.replicate 256 0)).stack_push 9).mem
      (0x0100 + cpuNmi.stack_pointer) = 9 :=
  ⟨by decide, by simp,
    (stack_push_wrap cpuNmi (by decide) (List.replicate 256 0) (by simp) 9).2.1⟩

/-! ## C8 — cartridge loading errors -/

/-- C8 counterexample: a 16-byte image with valid magic, iNES version 0 and
a declared 16 KiB PRG page but no payload behind the header is truncated;
`Rom::new` panics on the out-of-range PRG slice (`crash`) instead of
returning a typed failure. -/
theorem cartridge_truncated_crashes :
    Rom.new truncatedRom = RomOutcome.crash := by decide

/-- C8 amended: a missing magic (on an input of at least 4 bytes) and a
declared iNES 2.0 version (on an input holding the full flag bytes) are
returned as typed `Err` values; a payload shorter than
header + optional trainer + declared PRG + declared CHR makes the loader
panic (slice out of range) rather than return a typed failure. -/
theorem cartridge_error_outcomes (raw : List Nat) :
    (4 ≤ raw.length → raw.take 4 ≠ NES_FILE_SIGNATURE →
      Rom.new raw = RomOutcome.err "ROM data is not in iNES file format") ∧
    (8 ≤ raw.length → raw.take 4 = NES_FILE_SIGNATURE →
      (raw.getD 7 0 >>> 2) &&& 0b11 = 2 →
      Rom.new raw = RomOutcome.err "NES2.0 ROM format not supported") ∧
    (8 ≤ raw.length → raw.take 4 = NES_FILE_SIGNATURE →
      (raw.getD 7 0 >>> 2) &&& 0b11 = 0 →
      raw.length < 16 + (if raw.getD 6 0 &&& 0b100 ≠ 0 then 512 else 0)
        + raw.getD 4 0 * PRG_ROM_PAGE_SIZE + raw.getD 5 0 * CHR_ROM_PAGE_SIZE →
      Rom.new raw = RomOutcome.crash) := by
  refine ⟨?_, ?_, ?_⟩
  · intro h4 hm
    simp only [Rom.new]
    rw [if_neg (by omega), if_pos hm]
  · intro h8 hm hv
    simp only [Rom.new]
    rw [if_neg (by omega), if_neg (by simp [hm]), if_neg (by omega), if_pos (by omega)]
  · intro h8 hm hv htrunc
    simp only [Rom.new]
    rw [if_neg (by omega), if_neg (by simp [hm]), if_neg (by omega), if_neg (by omega)]
    split_ifs with h1 h2 h3
    · rfl
    · rfl
    · exfalso
      rw [if_pos h1] at htrunc
      omega
    · rfl
    · rfl
    · exfalso
      rw [if_neg h1] at htrunc
      omega

theorem cartridge_error_outcomes_witness :
    4 ≤ (List.replicate 16 (0:Nat)).length ∧
    (List.replicate 16 (0:Nat)).take 4 ≠ NES_FILE_SIGNATURE ∧
    Rom.new (List.replicate 16 0) = RomOutcome.err "ROM data is not in iNES file format" :=
  ⟨by decide, by decide, (cartridge_error_outcomes (List.replicate 16 0)).1 (by decide) (by decide)⟩

/-! ## C1 — NMI dispatch -/

/-- C1: evaluation of `manage_interrupt NMI` at a concrete state
(`P = 0b100000` — U set, B and I clear —, `PC = 0xABCD`, `S = 0xFD` after
overriding `cpuNmi`'s status).  The code pushes PC high then low, sets the
interrupt-disable flag, ticks the bus by 2 and loads PC from `0xFFFA` as the
claim says — but the status byte it pushes is `0x00`: both B and U are
cleared, because `b_flag_mask & FIFTH_BIT == 1` (and likewise with
`FOURTH_BIT`) can only yield 0 or the bit mask itself, never 1.  The claim
(backed by `NMI.b_flag_mask = 0b00100000` in `src/nes/interrupt.rs`) requires
the pushed byte to be `0x20`, with U set. -/
theorem nmi_dispatch_eval :
    ({ cpuNmi with status := 0b100000 }.manage_interrupt NMI).mem 0x01FD = 0xAB ∧
    ({ cpuNmi with status := 0b100000 }.manage_interrupt NMI).mem 0x01FC = 0xCD ∧
    ({ cpuNmi with status := 0b100000 }.manage_interrupt NMI).mem 0x01FB = 0x00 ∧
    ({ cpuNmi with status := 0b100000 }.manage_interrupt NMI).mem 0x01FB &&& FIFTH_BIT = 0 ∧
    ({ cpuNmi with status := 0b100000 }.manage_interrupt NMI).mem 0x01FB ≠ 0x20 ∧
    ({ cpuNmi with status := 0b100000 }.manage_interrupt NMI).status &&&
      CpuFlags.INTERRUPT_DISABLE ≠ 0 ∧
    ({ cpuNmi with status := 0b100000 }.manage_interrupt NMI).stack_pointer = 0xFA ∧
    ({ cpuNmi with status := 0b100000 }.manage_interrupt NMI).bus_ticks = [2] ∧
    ({ cpuNmi with status := 0b100000 }.manage_interrupt NMI).program_counter = 0x1234 := by
  decide

/-! ## C3 — VRAM mirroring -/

/-- `mirror_vram_address` on `0x2000 + k` (`k < 0x1000`), with the
`& 0x2FFF` mask discharged. -/
theorem mirror_vram_address_eq (mode : MirroringMode) (k : Nat) (hk : k < 4096) :
    mirror_vram_address mode (0x2000 + k) =
      if (mode = MirroringMode.Horizontal ∧ k / 0x400 = 2) ∨
          (mode = MirroringMode.Horizontal ∧ k / 0x400 = 1) then k - 0x400
      else if (mode = MirroringMode.Vertical ∧ k / 0x400 = 2) ∨
          (mode = MirroringMode.Vertical ∧ k / 0x400 = 3) ∨
          (mode = MirroringMode.Horizontal ∧ k / 0x400 = 3) then k - 0x800
      else k := by
  unfold mirror_vram_address
  rw [and_2FFF_id k hk]
  simp only [Nat.add_sub_cancel_left]

/-- Horizontal-mode specialisation of `mirror_vram_address_eq`. -/
theorem mirror_vram_address_h (k : Nat) (hk : k < 4096) :
    mirror_vram_address MirroringMode.Horizontal (0x2000 + k) =
      if k / 0x400 = 2 ∨ k / 0x400 = 1 then k - 0x400
      else if k / 0x400 = 3 then k - 0x800
      else k := by
  rw [mirror_vram_address_eq _ _ hk]
  simp

/-- Vertical-mode specialisation of `mirror_vram_address_eq`. -/
theorem mirror_vram_address_v (k : Nat) (hk : k < 4096) :
    mirror_vram_address MirroringMode.Vertical (0x2000 + k) =
      if k / 0x400 = 2 ∨ k / 0x400 = 3 then k - 0x800
      else k := by
  rw [mirror_vram_address_eq _ _ hk]
  simp

/-- C3: with the logical index `(addr & 0x2FFF) − 0x2000` and nametable id
`index / 0x400` (as `mirror_vram_address` computes), horizontal mirroring
makes nametable 1 alias nametable 0 and nametable 3 alias nametable 2
(their 0x400-apart addresses map to the same cell); vertical mirroring makes
nametable 2 alias nametable 0 and nametable 3 alias nametable 1 (0x800
apart); and for every address in the VRAM range and either mirror mode the
resulting index lies inside the 2 KiB VRAM array. -/
theorem vram_mirroring_folds (off addr : Nat) (hoff : off < 0x400)
    (h1 : 0x2000 ≤ addr) (h2 : addr ≤ 0x2FFF) :
    mirror_vram_address MirroringMode.Horizontal (0x2400 + off)
      = mirror_vram_address MirroringMode.Horizontal (0x2000 + off) ∧
    mirror_vram_address MirroringMode.Horizontal (0x2C00 + off)
      = mirror_vram_address MirroringMode.Horizontal (0x2800 + off) ∧
    mirror_vram_address MirroringMode.Vertical (0x2800 + off)
      = mirror_vram_address MirroringMode.Vertical (0x2000 + off) ∧
    mirror_vram_address MirroringMode.Vertical (0x2C00 + off)
      = mirror_vram_address MirroringMode.Vertical (0x2400 + off) ∧
    mirror_vram_address MirroringMode.Horizontal addr < 2048 ∧
    mirror_vram_address MirroringMode.Vertical addr < 2048 := by
  have e1 : (0x2400:Nat) + off = 0x2000 + (0x400 + off) := by omega
  have e2 : (0x2800:Nat) + off = 0x2000 + (0x800 + off) := by omega
  have e3 : (0x2C00:Nat) + off = 0x2000 + (0xC00 + off) := by omega
  have e0 : (0x2000:Nat) + off = 0x2000 + (0 + off) := by omega
  have eaddr : addr = 0x2000 + (addr - 0x2000) := by omega
  refine ⟨?_, ?_, ?_, ?_, ?_, ?_⟩
  · rw [e1, mirror_vram_address_h _ (by omega), e0, mirror_vram_address_h _ (by omega)]
    split_ifs <;> omega
  · rw [e3, mirror_vram_address_h _ (by omega), e2, mirror_vram_address_h _ (by omega)]
    split_ifs <;> omega
  · rw [e2, mirror_vram_address_v _ (by omega), e0, mirror_vram_address_v _ (by omega)]
    split_ifs <;> omega
  · rw [e3, mirror_vram_address_v _ (by omega), e1, mirror_vram_address_v _ (by omega)]
    split_ifs <;> omega
  · rw [eaddr, mirror_vram_address_h _ (by omega)]
    split_ifs <;> omega
  · rw [eaddr, mirror_vram_address_v _ (by omega)]
    split_ifs <;> omega

theorem vram_mirroring_folds_witness :
    (5:Nat) < 0x400 ∧ (0x2000:Nat) ≤ 0x2405 ∧ (0x2405:Nat) ≤ 0x2FFF ∧
    mirror_vram_address MirroringMode.Horizontal (0x2400 + 5)
      = mirror_vram_address MirroringMode.Horizontal (0x2000 + 5) :=
  ⟨by decide, by decide, by decide,
    (vram_mirroring_folds 5 0x2405 (by decide) (by decide) (by decide)).1⟩

/-! ## C4 — PPUDATA reads, palette bypass, and address auto-increment -/

theorem ControlRegister.vram_address_increment_lt (r : ControlRegister) :
    r.vram_address_increment < 256 := by
  unfold ControlRegister.vram_address_increment
  split_ifs <;> norm_num

/-- `AddressRegister.set` stores exactly its (already in-range) argument. -/
theorem AddressRegister.set_get_address (r : AddressRegister) (data : Nat)
    (hd : data < 0x4000) : (r.set data).get_address = data := by
  unfold AddressRegister.set
  rw [AddressRegister.get_address_mk _ _ _ (by rw [and_FF_eq_mod]; omega)]
  rw [and_FF_eq_mod, Nat.shiftRight_eq_div_pow]
  norm_num
  omega

/-- `AddressRegister.increment` adds `inc` to the held address, wrapping into
the `0x0000..0x3FFF` PPU address space. -/
theorem AddressRegister.increment_get_address (r : AddressRegister) (inc : Nat)
    (h0 : r.value0 < 256) (h1 : r.value1 < 256) (hinc : inc < 256)
    (hget : r.get_address ≤ 0x3FFF) :
    (r.increment inc).get_address = (r.get_address + inc) % 0x4000 := by
  obtain ⟨v0, v1, b⟩ := r
  dsimp only at h0 h1
  rw [AddressRegister.get_address_mk _ _ _ h1] at hget ⊢
  have hv0 : v0 ≤ 63 := by omega
  unfold AddressRegister.increment
  dsimp only
  by_cases hc : v1 > (v1 + inc) % 256
  · simp only [hc, if_true]
    have hb : (v0 + 1) % 256 = v0 + 1 := by omega
    rw [hb]
    rw [AddressRegister.get_address_mk (v0 + 1) _ b (by omega)]
    split_ifs with hm
    · rw [and_3FFF_eq_mod, AddressRegister.set_get_address _ _ (by omega)]
      omega
    · rw [AddressRegister.get_address_mk (v0 + 1) _ b (by omega)]
      omega
  · simp only [hc, if_false]
    rw [AddressRegister.get_address_mk v0 _ b (by omega)]
    split_ifs with hm
    · rw [and_3FFF_eq_mod, AddressRegister.set_get_address _ _ (by omega)]
      omega
    · rw [AddressRegister.get_address_mk v0 _ b (by omega)]
      omega

/-- C4: reads of the data register from the pattern-table region
(`0x0000..0x1FFF`) and the VRAM region (`0x2000..0x2FFF`) return the previous
internal buffer contents and refill the buffer from the address being
accessed (CHR, resp. mirrored VRAM); reads from the palette region
(`0x3F00..0x3FFF`) return the palette byte directly — through the
`$3F10/14/18/1C → $3F00/04/08/0C` alias where applicable — leaving the
buffer untouched; and every data-register access, read or write, increments
the internal address by `vram_address_increment` (1 or 32 as selected by
Control bit 2), wrapping into `0x0000..0x3FFF`. -/
theorem ppudata_access_semantics (p : Ppu) (d : Nat)
    (h0 : p.addr_register.value0 < 256) (h1 : p.addr_register.value1 < 256) :
    (p.addr_register.get_address ≤ 0x1FFF →
      ∃ q, p.read_data_register = some (p.internal_data_buffer, q) ∧
        q.internal_data_buffer = p.chr_rom p.addr_register.get_address ∧
        q.addr_register.get_address =
          (p.addr_register.get_address + p.ctrl_register.vram_address_increment) % 0x4000) ∧
    (0x2000 ≤ p.addr_register.get_address → p.addr_register.get_address ≤ 0x2FFF →
      ∃ q, p.read_data_register = some (p.internal_data_buffer, q) ∧
        q.internal_data_buffer =
          p.vram (mirror_vram_address p.mirroring_mode p.addr_register.get_address) ∧
        q.addr_register.get_address =
          (p.addr_register.get_address + p.ctrl_register.vram_address_increment) % 0x4000) ∧
    (0x3F00 ≤ p.addr_register.get_address → p.addr_register.get_address ≤ 0x3FFF →
      ¬(p.addr_register.get_address = 0x3F10 ∨ p.addr_register.get_address = 0x3F14 ∨
        p.addr_register.get_address = 0x3F18 ∨ p.addr_register.get_address = 0x3F1C) →
      ∃ q, p.read_data_register =
          some (p.palette_table (p.addr_register.get_address - 0x3F00), q) ∧
        q.internal_data_buffer = p.internal_data_buffer ∧
        q.addr_register.get_address =
          (p.addr_register.get_address + p.ctrl_register.vram_address_increment) % 0x4000) ∧
    ((p.addr_register.get_address = 0x3F10 ∨ p.addr_register.get_address = 0x3F14 ∨
        p.addr_register.get_address = 0x3F18 ∨ p.addr_register.get_address = 0x3F1C) →
      ∃ q, p.read_data_register =
          some (p.palette_table (p.addr_register.get_address - 0x10 - 0x3F00), q) ∧
        q.internal_data_buffer = p.internal_data_buffer ∧
        q.addr_register.get_address =
          (p.addr_register.get_address + p.ctrl_register.vram_address_increment) % 0x4000) ∧
    (∀ q, p.write_to_data_register d = some q →
      q.addr_register.get_address =
        (p.addr_register.get_address + p.ctrl_register.vram_address_increment) % 0x4000) := by
  have hinc : p.ctrl_register.vram_address_increment < 256 :=
    ControlRegister.vram_address_increment_lt _
  have key : p.addr_register.get_address ≤ 0x3FFF →
      (p.increment_vram_address).addr_register.get_address =
        (p.addr_register.get_address + p.ctrl_register.vram_address_increment) % 0x4000 :=
    fun hle => AddressRegister.increment_get_address _ _ h0 h1 hinc hle
  refine ⟨?_, ?_, ?_, ?_, ?_⟩
  · intro h
    refine ⟨{ p.increment_vram_address with
        internal_data_buffer := p.chr_rom p.addr_register.get_address }, ?_, rfl, key (by omega)⟩
    simp only [Ppu.read_data_register]
    rw [if_pos h]
    rfl
  · intro h h2
    refine ⟨{ p.increment_vram_address with
        internal_data_buffer :=
          p.vram (mirror_vram_address p.mirroring_mode p.addr_register.get_address) },
      ?_, rfl, key (by omega)⟩
    simp only [Ppu.read_data_register]
    rw [if_neg (by omega), if_pos ⟨h, h2⟩]
    rfl
  · intro h h2 h3
    refine ⟨p.increment_vram_address, ?_, rfl, key (by omega)⟩
    simp only [Ppu.read_data_register]
    rw [if_neg (by omega), if_neg (by omega), if_neg h3, if_neg (by omega),
      if_pos ⟨h, h2⟩]
    rfl
  · intro h
    refine ⟨p.increment_vram_address, ?_, rfl, key (by rcases h with h|h|h|h <;> omega)⟩
    simp only [Ppu.read_data_register]
    rw [if_neg (by rcases h with h|h|h|h <;> omega),
      if_neg (by rcases h with h|h|h|h <;> omega), if_pos h]
    rfl
  · intro q hq
    simp only [Ppu.write_to_data_register] at hq
    split_ifs at hq with ha hb hc hd he
    · simp only [Option.map_some'] at hq
      rw [← Option.some.inj hq]
      exact key (by omega)
    · simp only [Option.map_some'] at hq
      rw [← Option.some.inj hq]
      exact key (by omega)
    · simp only [Option.map_none'] at hq
      exact absurd hq (by simp)
    · simp only [Option.map_some'] at hq
      rw [← Option.some.inj hq]
      exact key (by rcases hd with h|h|h|h <;> omega)
    · simp only [Option.map_some'] at hq
      rw [← Option.some.inj hq]
      exact key (by omega)
    · simp only [Option.map_none'] at hq
      exact absurd hq (by simp)

theorem ppudata_access_semantics_witness :
    ppu0.addr_register.value0 < 256 ∧ ppu0.addr_register.value1 < 256 ∧
    ppu0.addr_register.get_address ≤ 0x1FFF ∧
    (∃ q, ppu0.read_data_register = some (ppu0.internal_data_buffer, q) ∧
      q.internal_data_buffer = ppu0.chr_rom ppu0.addr_register.get_address ∧
      q.addr_register.get_address =
        (ppu0.addr_register.get_address + ppu0.ctrl_register.vram_address_increment) % 0x4000) :=
  ⟨by decide, by decide, by decide,
    (ppudata_access_semantics ppu0 0 (by decide) (by decide)).1 (by decide)⟩

/-! ## C5 — frame cadence -/

/-- One `Ppu::tick` with fewer than 341 dots added keeps `cycles < 341` and
`scanline < 262`, and conserves total dots: the new position plus 89342
(= 341 × 262) per completed frame equals the old position plus the dots
added. -/
theorem ppu_tick_frame_step (p : Ppu) (c : Nat) (hc : c ≤ 340)
    (hcy : p.cycles < 341) (hsl : p.scanline < 262) :
    (p.tick c).2.cycles < 341 ∧ (p.tick c).2.scanline < 262 ∧
    341 * (p.tick c).2.scanline + (p.tick c).2.cycles
      + (if (p.tick c).1 then 89342 else 0)
      = 341 * p.scanline + p.cycles + c := by
  unfold Ppu.tick
  dsimp only
  split_ifs <;> (try simp_all) <;> omega

/-- Iterated `Bus::tick` with per-instruction cycle counts of at most 85
(so that the `u8` multiply `cycles * 3` cannot wrap) conserves total PPU
dots across the dot counter, the scanline counter and completed frames. -/
theorem bus_tick_seq_invariant (cs : List Nat) :
    ∀ b : Bus, (∀ c ∈ cs, c ≤ 85) → b.ppu.cycles < 341 → b.ppu.scanline < 262 →
      (b.tick_seq cs).ppu.cycles < 341 ∧ (b.tick_seq cs).ppu.scanline < 262 ∧
      89342 * (b.tick_seq cs).frame_count + 341 * (b.tick_seq cs).ppu.scanline
          + (b.tick_seq cs).ppu.cycles
        = 89342 * b.frame_count + 341 * b.ppu.scanline + b.ppu.cycles + 3 * cs.sum := by
  induction cs with
  | nil =>
      intro b _ hcy hsl
      refine ⟨hcy, hsl, ?_⟩
      simp [Bus.tick_seq]
  | cons c t ih =>
      intro b hmem hcy hsl
      have hc85 : c ≤ 85 := hmem c (by simp)
      have hmul : c * 3 % 256 = 3 * c := by omega
      have hstep := ppu_tick_frame_step b.ppu (3 * c) (by omega) hcy hsl
      have hbus_ppu : (b.tick c).ppu = (b.ppu.tick (c * 3 % 256)).2 := by
        unfold Bus.tick
        dsimp only
        split_ifs <;> rfl
      rw [hmul] at hbus_ppu
      have hfc : (b.tick c).frame_count
          = b.frame_count + (if (b.ppu.tick (3 * c)).1 then 1 else 0) := by
        unfold Bus.tick
        dsimp only
        rw [hmul]
        split_ifs with hsp
        · simp [hsp]
        · simp [hsp]
      have hseq : b.tick_seq (c :: t) = (b.tick c).tick_seq t := by
        simp [Bus.tick_seq]
      have ihc := ih (b.tick c) (fun x hx => hmem x (by simp [hx]))
        (by rw [hbus_ppu]; exact hstep.1) (by rw [hbus_ppu]; exact hstep.2.1)
      rw [hseq]
      refine ⟨ihc.1, ihc.2.1, ?_⟩
      have ihc2 := ihc.2.2
      rw [hbus_ppu, hfc] at ihc2
      have hstep2 := hstep.2.2
      simp only [List.sum_cons]
      rcases hfr : (b.ppu.tick (3 * c)).1 with _ | _
      · rw [hfr] at ihc2 hstep2
        simp at ihc2 hstep2
        omega
      · rw [hfr] at ihc2 hstep2
        simp at ihc2 hstep2
        omega

/-- C5: from reset (dot counter 0, scanline 0, no frames yet), running any
sequence of `Bus::tick` calls whose per-instruction cycle counts stay at or
below 85 invokes the frame callback exactly once per 341 × 262 = 89342 PPU
dots: the number of invocations is the total dot count (3 per CPU cycle)
divided by 89342.  Each tick adds `3 × cpu_cycles` dots; whenever the dot
counter reaches 341 it drops by 341 as the scanline advances, and the
callback fires exactly when scanline 261 wraps to 0. -/
theorem frame_cadence (b : Bus) (cs : List Nat) (hb1 : b.ppu.cycles = 0)
    (hb2 : b.ppu.scanline = 0) (hb3 : b.frame_count = 0) (hcs : ∀ c ∈ cs, c ≤ 85) :
    (b.tick_seq cs).frame_count = 3 * cs.sum / 89342 := by
  obtain ⟨ha, hb', hc'⟩ := bus_tick_seq_invariant cs b hcs (by omega) (by omega)
  rw [hb1, hb2, hb3] at hc'
  omega

theorem frame_cadence_witness :
    bus0.ppu.cycles = 0 ∧ bus0.ppu.scanline = 0 ∧ bus0.frame_count = 0 ∧
    (bus0.tick_seq [7, 85, 2]).frame_count = 3 * ([7, 85, 2] : List Nat).sum / 89342 :=
  ⟨rfl, rfl, rfl, frame_cadence bus0 [7, 85, 2] rfl rfl rfl (by decide)⟩
